import Mathlib

/-!
Verification of the session and authorization-code lifecycle layer of the
passkey authentication service.

The Go source is shallowly embedded: byte slices become `List Nat`, the
wall clock becomes an explicit `Nat` parameter (`time.Now()`), Go maps and
the key-value stores become association lists, fallible operations return
`Except String`, and the external WebAuthn engine (an explicitly external
collaborator) is a function-valued parameter.  Mutating storage operations
return the updated store alongside their result.
-/

set_option autoImplicit false

namespace Passkey

/-! ## Data model (internal/models) -/

/-- `models.Session`: an authenticated session record.  `userId` is the Go
`[]byte` user id; timestamps are wall-clock instants. -/
structure Session where
  id : String
  username : String
  userId : List Nat
  createdAt : Nat
  expiresAt : Nat
deriving Repr, DecidableEq

/-- `models.WebAuthnSession`: ephemeral ceremony state.  The engine-owned
challenge payload (`webauthn.SessionData`) is opaque to this core and is
modelled as a bare `Nat` token. -/
structure WebAuthnSession where
  username : String
  data : Nat
  expiresAt : Nat
deriving Repr, DecidableEq

/-- A credential record: the opaque credential id bytes plus an opaque token
standing for the engine-owned public-key material and sign count. -/
structure Credential where
  id : List Nat
  payload : Nat
deriving Repr, DecidableEq

/-- `models.User`. -/
structure User where
  id : List Nat
  name : String
  displayName : String
  credentials : List Credential
  createdAt : Nat
  updatedAt : Nat
deriving Repr, DecidableEq

/-- `models.Client`: an OAuth client of the static registry. -/
structure Client where
  id : String
  name : String
  redirectURIs : List String
deriving Repr, DecidableEq

/-- `models.AuthorizationRequest`. -/
structure AuthorizationRequest where
  clientID : String
  redirectURI : String
  state : String
  createdAt : Nat
  expiresAt : Nat
deriving Repr, DecidableEq

/-- `models.AuthorizationCode`. -/
structure AuthorizationCode where
  code : String
  clientID : String
  redirectURI : String
  state : String
  username : String
  userID : List Nat
  createdAt : Nat
  expiresAt : Nat
deriving Repr, DecidableEq

/-- Go `[]byte(s)` for the ASCII usernames this service handles. -/
def strBytes (s : String) : List Nat :=
  s.data.map Char.toNat

/-! ## Association-list stores (Go map semantics) -/

/-- First-match lookup; with the `insertKey`/`removeKey` operations below this
models a Go map. -/
def lookupKey {α : Type} (st : List (String × α)) (k : String) : Option α :=
  match st with
  | [] => none
  | (k₂, v) :: rest => if k₂ = k then some v else lookupKey rest k

/-- Deleting a key (Go `delete(m, k)`). -/
def removeKey {α : Type} (st : List (String × α)) (k : String) : List (String × α) :=
  st.filter (fun p => p.1 ≠ k)

/-- Inserting/overwriting a key (Go `m[k] = v`). -/
def insertKey {α : Type} (st : List (String × α)) (k : String) (v : α) : List (String × α) :=
  (k, v) :: removeKey st k

theorem lookupKey_cons {α : Type} (k₃ : String) (v₃ : α) (rest : List (String × α)) (k : String) :
    lookupKey ((k₃, v₃) :: rest) k = if k₃ = k then some v₃ else lookupKey rest k := rfl

theorem removeKey_cons {α : Type} (k₃ : String) (v₃ : α) (rest : List (String × α)) (k : String) :
    removeKey ((k₃, v₃) :: rest) k =
      if k₃ = k then removeKey rest k else (k₃, v₃) :: removeKey rest k := by
  simp only [removeKey, List.filter_cons]
  by_cases h : k₃ = k <;> simp [h]

theorem lookupKey_insertKey_self {α : Type} (st : List (String × α)) (k : String) (v : α) :
    lookupKey (insertKey st k v) k = some v := by
  simp [insertKey, lookupKey]

theorem lookupKey_removeKey {α : Type} (st : List (String × α)) (k k₂ : String)
    (hne : k₂ ≠ k) : lookupKey (removeKey st k) k₂ = lookupKey st k₂ := by
  induction st with
  | nil => rfl
  | cons p rest ih =>
    obtain ⟨k₃, v₃⟩ := p
    rw [removeKey_cons]
    by_cases h₃ : k₃ = k
    · rw [if_pos h₃, ih, lookupKey_cons,
        if_neg (fun h : k₃ = k₂ => hne (h ▸ h₃))]
    · rw [if_neg h₃, lookupKey_cons, lookupKey_cons, ih]

theorem lookupKey_insertKey_other {α : Type} (st : List (String × α)) (k k₂ : String) (v : α)
    (hne : k₂ ≠ k) : lookupKey (insertKey st k v) k₂ = lookupKey st k₂ := by
  rw [insertKey, lookupKey_cons, if_neg (fun h => hne h.symm),
    lookupKey_removeKey st k k₂ hne]

abbrev SessionStore := List (String × Session)
abbrev WebAuthnStore := List (String × WebAuthnSession)
abbrev UserStore := List (String × User)

/-! ## In-memory session backend (MemoryStorage)

`time.Now().After(t)` is `now > t`.  Reads self-heal: an expired record is
deleted on read and reported absent. -/

def MemoryStorage.SaveSession (st : SessionStore) (s : Session) : SessionStore :=
  insertKey st s.id s

def MemoryStorage.GetSession (now : Nat) (st : SessionStore) (sessionID : String) :
    Option Session × SessionStore :=
  match lookupKey st sessionID with
  | none => (none, st)
  | some s => if now > s.expiresAt then (none, removeKey st sessionID) else (some s, st)

def MemoryStorage.DeleteSession (st : SessionStore) (sessionID : String) : SessionStore :=
  removeKey st sessionID

def MemoryStorage.SaveWebAuthnSession (st : WebAuthnStore) (username : String)
    (s : WebAuthnSession) : WebAuthnStore :=
  insertKey st username s

def MemoryStorage.GetWebAuthnSession (now : Nat) (st : WebAuthnStore) (username : String) :
    Option WebAuthnSession × WebAuthnStore :=
  match lookupKey st username with
  | none => (none, st)
  | some s => if now > s.expiresAt then (none, removeKey st username) else (some s, st)

def MemoryStorage.DeleteWebAuthnSession (st : WebAuthnStore) (username : String) : WebAuthnStore :=
  removeKey st username

/-! ## Redis session backend (RedisStorage)

Each entry carries the value together with the store-native TTL deadline set
at write time (`client.Set(ctx, key, data, ttl)`).  The store serves a key
only while `now < deadline`; this models Redis treating a key past its TTL
as absent even before physical purge. -/

structure RedisState where
  webauthnSessions : List (String × (WebAuthnSession × Nat))
  sessions : List (String × (Session × Nat))
deriving Repr, DecidableEq

/-- Redis `GET`: present and within TTL, else nil. -/
def redisServe {α : Type} (now : Nat) (entries : List (String × (α × Nat))) (k : String) :
    Option α :=
  match lookupKey entries k with
  | none => none
  | some (v, deadline) => if now < deadline then some v else none

/-- `RedisStorage.SaveWebAuthnSession`: rejects an already expired record,
otherwise writes with TTL `time.Until(ExpiresAt)`. -/
def RedisStorage.SaveWebAuthnSession (now : Nat) (st : RedisState) (username : String)
    (session : WebAuthnSession) : Except String RedisState :=
  if session.expiresAt ≤ now then .error "session already expired"
  else
    let entries :=
      insertKey st.webauthnSessions ("webauthn_session:" ++ username) (session, session.expiresAt)
    .ok { st with webauthnSessions := entries }

/-- `RedisStorage.GetWebAuthnSession`: a plain `GET` plus unmarshal; the
record's own `ExpiresAt` is not re-checked (source lines 44-61). -/
def RedisStorage.GetWebAuthnSession (now : Nat) (st : RedisState) (username : String) :
    Option WebAuthnSession :=
  redisServe now st.webauthnSessions ("webauthn_session:" ++ username)

/-- `RedisStorage.SaveSession`. -/
def RedisStorage.SaveSession (now : Nat) (st : RedisState) (session : Session) :
    Except String RedisState :=
  if session.expiresAt ≤ now then .error "session already expired"
  else
    let entries := insertKey st.sessions ("session:" ++ session.id) (session, session.expiresAt)
    .ok { st with sessions := entries }

/-- `RedisStorage.GetSession`: a `GET` followed by a defensive wall-clock
expiry re-check that deletes and reports absent (source lines 89-111). -/
def RedisStorage.GetSession (now : Nat) (st : RedisState) (sessionID : String) :
    Option Session × RedisState :=
  match redisServe now st.sessions ("session:" ++ sessionID) with
  | none => (none, st)
  | some s =>
    if now > s.expiresAt then
      (none, { st with sessions := removeKey st.sessions ("session:" ++ sessionID) })
    else (some s, st)

/-! ## Hex encoding and random identifiers -/

/-- One hex digit of the alphabet "0123456789abcdef", computed from the
character codes (48 is the code of the zero digit, 87 + 10 that of the
letter a). -/
def hexDigit (n : Nat) : Char :=
  if n < 10 then Char.ofNat (48 + n)
  else if n < 16 then Char.ofNat (87 + n)
  else 'f'

/-- `hex.EncodeToString`: high nibble then low nibble of each byte. -/
def hexEncode (bs : List Nat) : String :=
  ⟨bs.foldr (fun b acc => hexDigit (b / 16) :: hexDigit (b % 16) :: acc) []⟩

/-- `generateRandomCode(32)` with the 32 random bytes made explicit. -/
def generateRandomCode (randBytes : List Nat) : String :=
  hexEncode randBytes

/-- `generateSessionID`: hex encoding of 32 random bytes.  The randomness is
an explicit parameter. -/
def generateSessionID (randBytes : List Nat) : String :=
  hexEncode randBytes

/-! ## OAuth service (internal/oauth) -/

def demoAppClient : Client :=
  { id := "demo-app", name := "Demo Application",
    redirectURIs := ["http://localhost:3000/callback", "https://localhost:3000/callback",
                     "http://localhost:8080/callback", "https://localhost:8080/callback"] }

def testAppClient : Client :=
  { id := "test-app", name := "Test Application",
    redirectURIs := ["http://localhost:3001/callback", "https://localhost:3001/callback"] }

/-- The static client registry built by `NewOAuthService`. -/
def defaultClients : List (String × Client) :=
  [("demo-app", demoAppClient), ("test-app", testAppClient)]

/-- `ValidateAuthorizationRequest`: the client id must be registered and the
redirect URI must be string-equal (`uri == redirectURI`) to one of the
client's registered URIs. -/
def ValidateAuthorizationRequest (clients : List (String × Client))
    (clientID redirectURI : String) : Except String Client :=
  match lookupKey clients clientID with
  | none => .error "invalid client_id"
  | some client =>
    if redirectURI ∈ client.redirectURIs then .ok client
    else .error "invalid redirect_uri"

/-- `CreateAuthorizationRequest`: validation plus a 10-minute request record. -/
def CreateAuthorizationRequest (clients : List (String × Client)) (now : Nat)
    (clientID redirectURI state : String) : Except String AuthorizationRequest :=
  match ValidateAuthorizationRequest clients clientID redirectURI with
  | .error e => .error e
  | .ok client =>
    .ok { clientID := client.id, redirectURI := redirectURI, state := state,
          createdAt := now, expiresAt := now + 600 }

/-- `CreateAuthorizationCode`: builds the code record and persists it as a
`Session` under the namespaced key `"auth_code:" ++ code`.  Only the owner
identity and the timestamps are stored in that session record. -/
def CreateAuthorizationCode (now : Nat) (st : SessionStore) (randBytes : List Nat)
    (request : AuthorizationRequest) (user : User) : AuthorizationCode × SessionStore :=
  let code : AuthorizationCode :=
    { code := generateRandomCode randBytes, clientID := request.clientID,
      redirectURI := request.redirectURI, state := request.state,
      username := user.name, userID := user.id,
      createdAt := now, expiresAt := now + 600 }
  let codeSession : Session :=
    { id := "auth_code:" ++ code.code, username := user.name, userId := user.id,
      createdAt := code.createdAt, expiresAt := code.expiresAt }
  (code, MemoryStorage.SaveSession st codeSession)

/-- `ExchangeAuthorizationCode`: validate the presented client id and redirect
URI against the registry, load the code record, fail if absent, then delete
it and return the owner identity with the original timestamps.  The session
store is the in-memory backend. -/
def ExchangeAuthorizationCode (clients : List (String × Client)) (now : Nat)
    (st : SessionStore) (code clientID redirectURI : String) :
    Except String AuthorizationCode × SessionStore :=
  match ValidateAuthorizationRequest clients clientID redirectURI with
  | .error e => (.error e, st)
  | .ok _ =>
    match MemoryStorage.GetSession now st ("auth_code:" ++ code) with
    | (none, st₂) => (.error "invalid or expired authorization code", st₂)
    | (some session, st₂) =>
      let st₃ := MemoryStorage.DeleteSession st₂ ("auth_code:" ++ code)
      (.ok { code := code, clientID := clientID, redirectURI := redirectURI, state := "",
             username := session.username, userID := session.userId,
             createdAt := session.createdAt, expiresAt := session.expiresAt }, st₃)

/-! ## WebAuthn credential orchestrator (internal/auth)

The external WebAuthn engine is an explicit collaborator: its two ceremony
verifications are function-valued fields returning `none` on rejection.
The challenge payload and the ceremony response are opaque `Nat` tokens. -/

structure Engine where
  beginRegistration : User → Option (Nat × Nat)
  finishRegistration : User → Nat → Nat → Option Credential

/-- The session-bearing part of an HTTP request: the `session_id` cookie and
the `Authorization` header. -/
structure RequestAuth where
  cookieSessionID : Option String
  authorizationHeader : Option String
deriving Repr, DecidableEq

/-- Session-id extraction shared by `isUserAuthenticated`: cookie first, then
a `Bearer` Authorization header (`len(auth) > 7 && auth[:7] == "Bearer "`). -/
def sessionIDFromRequest (r : RequestAuth) : String :=
  let sid := r.cookieSessionID.getD ""
  if sid = "" then
    match r.authorizationHeader with
    | some auth => if auth.length > 7 ∧ auth.take 7 = "Bearer " then auth.drop 7 else ""
    | none => ""
  else sid

/-- `isUserAuthenticated`: resolve a session id from the request, look the
session up, and require it to belong to `username` and to be unexpired
(`session.Username != username || session.ExpiresAt.Before(now)` rejects). -/
def isUserAuthenticated (now : Nat) (st : SessionStore) (r : RequestAuth) (username : String) :
    Bool × SessionStore :=
  let sessionID := sessionIDFromRequest r
  if sessionID = "" then (false, st)
  else
    match MemoryStorage.GetSession now st sessionID with
    | (none, st₂) => (false, st₂)
    | (some session, st₂) =>
      if session.username ≠ username ∨ session.expiresAt < now then (false, st₂)
      else (true, st₂)

/-- The user value both registration steps work with: the stored record, or a
fresh credential-less record when `GetUser` fails. -/
def resolveRegistrationUser (now : Nat) (users : UserStore) (username : String) : User :=
  match lookupKey users username with
  | some u => u
  | none =>
    { id := strBytes username, name := username, displayName := username,
      credentials := [], createdAt := now, updatedAt := now }

/-- The duplicated conflict check of `BeginRegistration`/`FinishRegistration`:
an existing user with at least one credential must be authenticated. -/
def registrationGate (now : Nat) (users : UserStore) (sessions : SessionStore)
    (r : RequestAuth) (username : String) : Bool × SessionStore :=
  match lookupKey users username with
  | some u =>
    if u.credentials.length > 0 then isUserAuthenticated now sessions r username
    else (true, sessions)
  | none => (true, sessions)

/-- The conflict error of both registration steps. -/
def conflictMsg : String :=
  "user already exists - please authenticate first to add additional passkeys"

/-- The combined persistent state the orchestrator operates on. -/
structure ServiceState where
  users : UserStore
  sessions : SessionStore
  webauthnSessions : WebAuthnStore
deriving Repr, DecidableEq

/-- `BeginRegistration`: resolve the user, run the conflict gate, ask the
engine for ceremony options, and save the challenge as a 5-minute
`WebAuthnSession` keyed by username.  Returns the engine options token. -/
def BeginRegistration (eng : Engine) (now : Nat) (σ : ServiceState) (r : RequestAuth)
    (username : String) : Except String Nat × ServiceState :=
  let user := resolveRegistrationUser now σ.users username
  let gate := registrationGate now σ.users σ.sessions r username
  if gate.1 = false then (.error conflictMsg, { σ with sessions := gate.2 })
  else
    match eng.beginRegistration user with
    | none => (.error "failed to begin registration", { σ with sessions := gate.2 })
    | some (options, sessionData) =>
      let session : WebAuthnSession :=
        { username := username, data := sessionData, expiresAt := now + 300 }
      (.ok options,
       { σ with sessions := gate.2,
                webauthnSessions :=
                  MemoryStorage.SaveWebAuthnSession σ.webauthnSessions username session })

/-- `FinishRegistration`: reload the ceremony session (absent/expired fails),
re-run the conflict gate, verify the response with the engine, append the
returned credential, persist the user, and only then delete the ceremony
session.  `saveOk` models whether the backend write of `SaveUser`
succeeds; a failed write persists nothing (per-key atomicity). -/
def FinishRegistration (eng : Engine) (saveOk : Bool) (now : Nat) (σ : ServiceState)
    (r : RequestAuth) (username : String) (response : Nat) :
    Except String Unit × ServiceState :=
  match MemoryStorage.GetWebAuthnSession now σ.webauthnSessions username with
  | (none, wst₂) => (.error "session not found", { σ with webauthnSessions := wst₂ })
  | (some session, wst₂) =>
    let user := resolveRegistrationUser now σ.users username
    let gate := registrationGate now σ.users σ.sessions r username
    if gate.1 = false then
      (.error conflictMsg, { σ with sessions := gate.2, webauthnSessions := wst₂ })
    else
      match eng.finishRegistration user session.data response with
      | none =>
        (.error "failed to finish registration",
         { σ with sessions := gate.2, webauthnSessions := wst₂ })
      | some credential =>
        let user₂ : User :=
          { user with credentials := user.credentials ++ [credential], updatedAt := now }
        if saveOk = false then
          (.error "failed to save user", { σ with sessions := gate.2, webauthnSessions := wst₂ })
        else
          (.ok (),
           { users := insertKey σ.users user₂.name user₂,
             sessions := gate.2,
             webauthnSessions := MemoryStorage.DeleteWebAuthnSession wst₂ username })

/-! ## base64url (RawURLEncoding: URL-safe alphabet, no padding) -/

def b64Alphabet : List Char :=
  "ABCDEFGHIJKLMNOPQRSTUVWXYZabcdefghijklmnopqrstuvwxyz0123456789-_".data

def b64Char (n : Nat) : Char :=
  b64Alphabet.getD n 'A'

/-- base64url without padding on a byte list, three bytes a group. -/
def base64urlChars : List Nat → List Char
  | [] => []
  | [b₁] => [b64Char (b₁ / 4), b64Char (b₁ % 4 * 16)]
  | [b₁, b₂] => [b64Char (b₁ / 4), b64Char (b₁ % 4 * 16 + b₂ / 16), b64Char (b₂ % 16 * 4)]
  | b₁ :: b₂ :: b₃ :: rest =>
    b64Char (b₁ / 4) :: b64Char (b₁ % 4 * 16 + b₂ / 16) ::
    b64Char (b₂ % 16 * 4 + b₃ / 64) :: b64Char (b₃ % 64) :: base64urlChars rest

/-- `base64.URLEncoding.WithPadding(base64.NoPadding).EncodeToString`. -/
def base64urlEncode (bs : List Nat) : String :=
  ⟨base64urlChars bs⟩

/-- `DeleteCredential`: keep every credential whose base64url id differs from
the requested identifier; NotFound when nothing matched; a dedicated error
when the kept list would be empty; otherwise persist the reduced user. -/
def DeleteCredential (users : UserStore) (now : Nat) (username credentialID : String) :
    Except String UserStore :=
  match lookupKey users username with
  | none => .error "user not found"
  | some user =>
    let newCredentials := user.credentials.filter (fun cred => base64urlEncode cred.id ≠ credentialID)
    let found := user.credentials.any (fun cred => base64urlEncode cred.id == credentialID)
    if found = false then .error "credential not found"
    else if newCredentials = [] then .error "cannot delete the last credential"
    else
      let user₂ : User := { user with credentials := newCredentials, updatedAt := now }
      .ok (insertKey users user₂.name user₂)

/-! ## POST /oauth/complete (api.OAuthAPIHandlers.CompleteHandler)

The JSON request body.  Note the handler receives no session cookie, no
Authorization header and consults no session store: its only inputs are the
body fields below. -/

structure CompleteRequest where
  username : String
  clientID : String
  redirectURI : String
  state : String
deriving Repr, DecidableEq

/-- `CompleteHandler` as registered on `POST /oauth/complete`: required-field
check, client/redirect validation, then a minimal user built from the
body's username alone, for which an authorization code is created and
persisted.  The final redirect-URL string formatting (`BuildRedirectURL`)
is outside this model; the handler's effect — the minted code and the
updated code store — is returned directly. -/
def CompleteHandler (clients : List (String × Client)) (now : Nat) (st : SessionStore)
    (randBytes : List Nat) (req : CompleteRequest) :
    Except String (AuthorizationCode × SessionStore) :=
  if req.username = "" ∨ req.clientID = "" ∨ req.redirectURI = "" then
    .error "username, client_id, and redirect_uri are required"
  else
    match CreateAuthorizationRequest clients now req.clientID req.redirectURI req.state with
    | .error _ => .error "Invalid authorization request"
    | .ok authRequest =>
      let user : User :=
        { id := strBytes req.username, name := req.username, displayName := "",
          credentials := [], createdAt := 0, updatedAt := 0 }
      .ok (CreateAuthorizationCode now st randBytes authRequest user)

/-! ## Two concurrent exchanges of one code

`ExchangeAuthorizationCode` performs, after its pure validation, two separate
storage operations: `GetSession` then `DeleteSession`.  Each one is atomic
(the in-memory backend serializes map access through its lock) but the pair
is not.  A thread of the exchange is therefore modelled as the two-step
program below, and two such threads are interleaved by a schedule. -/

structure ExchangeThread where
  loaded : Option (Option Session)
  deleted : Bool
deriving Repr, DecidableEq

def ExchangeThread.init : ExchangeThread :=
  { loaded := none, deleted := false }

/-- One atomic step of an exchange thread: first the load, then — only when a
record was found, as in the source — the delete. -/
def stepExchange (now : Nat) (code : String) (t : ExchangeThread) (st : SessionStore) :
    ExchangeThread × SessionStore :=
  match t.loaded with
  | none =>
    let r := MemoryStorage.GetSession now st ("auth_code:" ++ code)
    ({ t with loaded := some r.1 }, r.2)
  | some none => (t, st)
  | some (some _) =>
    if t.deleted then (t, st)
    else ({ t with deleted := true }, MemoryStorage.DeleteSession st ("auth_code:" ++ code))

/-- Run threads A and B under a schedule (`true` steps A). -/
def runTwoExchanges (now : Nat) (code : String) :
    List Bool → ExchangeThread × ExchangeThread × SessionStore →
    ExchangeThread × ExchangeThread × SessionStore
  | [], s => s
  | true :: rest, (a, b, st) =>
    let r := stepExchange now code a st
    runTwoExchanges now code rest (r.1, b, r.2)
  | false :: rest, (a, b, st) =>
    let r := stepExchange now code b st
    runTwoExchanges now code rest (a, r.1, r.2)

/-- A finished thread succeeded — returned `.ok` with the owner identity —
exactly when its load step found a record. -/
def ExchangeThread.succeeded (t : ExchangeThread) : Bool :=
  match t.loaded with
  | some (some _) => true
  | _ => false

/-! ## General lemmas about the embedded operations -/

/-- A successful in-memory session read leaves the store untouched. -/
theorem getSession_some_frame (now : Nat) (st : SessionStore) (id : String) (s : Session)
    (h : (MemoryStorage.GetSession now st id).1 = some s) :
    (MemoryStorage.GetSession now st id).2 = st := by
  unfold MemoryStorage.GetSession at *
  cases hl : lookupKey st id with
  | none => simp [hl] at h
  | some s₂ =>
    by_cases hexp : now > s₂.expiresAt
    · simp [hl, hexp] at h
    · simp [hl, hexp]

/-- A successful in-memory ceremony read leaves the store untouched. -/
theorem getWebAuthnSession_some_frame (now : Nat) (st : WebAuthnStore) (u : String)
    (s : WebAuthnSession) (h : (MemoryStorage.GetWebAuthnSession now st u).1 = some s) :
    (MemoryStorage.GetWebAuthnSession now st u).2 = st := by
  unfold MemoryStorage.GetWebAuthnSession at *
  cases hl : lookupKey st u with
  | none => simp [hl] at h
  | some s₂ =>
    by_cases hexp : now > s₂.expiresAt
    · simp [hl, hexp] at h
    · simp [hl, hexp]

/-- A positive authentication check leaves the session store untouched. -/
theorem isUserAuthenticated_true_frame (now : Nat) (st : SessionStore) (r : RequestAuth)
    (username : String) (h : (isUserAuthenticated now st r username).1 = true) :
    (isUserAuthenticated now st r username).2 = st := by
  unfold isUserAuthenticated at *
  by_cases hsid : sessionIDFromRequest r = ""
  · simp [hsid] at h
  · cases hg : MemoryStorage.GetSession now st (sessionIDFromRequest r) with
    | mk v st₂ =>
      cases v with
      | none => simp [hsid, hg] at h
      | some session =>
        have hst : st₂ = st := by
          have h₂ := getSession_some_frame now st (sessionIDFromRequest r) session
          rw [hg] at h₂
          exact h₂ rfl
        by_cases hc : session.username ≠ username ∨ session.expiresAt < now
        · simp [hsid, hg, hc] at h
        · simp [hsid, hg, hc, hst]

/-- A passing registration gate leaves the session store untouched. -/
theorem registrationGate_true_frame (now : Nat) (users : UserStore) (sessions : SessionStore)
    (r : RequestAuth) (username : String)
    (h : (registrationGate now users sessions r username).1 = true) :
    (registrationGate now users sessions r username).2 = sessions := by
  unfold registrationGate at *
  cases hl : lookupKey users username with
  | none => rfl
  | some u =>
    rw [hl] at h
    by_cases hc : u.credentials.length > 0
    · simp only [hc, if_true] at h ⊢
      exact isUserAuthenticated_true_frame now sessions r username h
    · simp only [hc, if_false]

/-! ## C4: redirect-URI validation is exact string matching -/

/-- C4: `ValidateAuthorizationRequest` succeeds exactly when the client id is
in the registry and the redirect URI is byte-for-byte equal to one of that
client's registered URIs; a registered client with any other URI gets the
invalid-redirect-URI error, an unknown client the invalid-client error. -/
theorem validate_request_exact_match (clients : List (String × Client))
    (clientID redirectURI : String) :
    (∀ c, ValidateAuthorizationRequest clients clientID redirectURI = .ok c ↔
        lookupKey clients clientID = some c ∧ redirectURI ∈ c.redirectURIs)
    ∧ (∀ c, lookupKey clients clientID = some c → redirectURI ∉ c.redirectURIs →
        ValidateAuthorizationRequest clients clientID redirectURI = .error "invalid redirect_uri")
    ∧ (lookupKey clients clientID = none →
        ValidateAuthorizationRequest clients clientID redirectURI = .error "invalid client_id") := by
  unfold ValidateAuthorizationRequest
  refine ⟨fun c => ?_, fun c hl hn => ?_, fun hl => ?_⟩
  · cases hl : lookupKey clients clientID with
    | none => simp
    | some c₂ =>
      by_cases hm : redirectURI ∈ c₂.redirectURIs
      · simp only [hm, if_true, Except.ok.injEq, Option.some.injEq]
        constructor
        · intro h; exact ⟨h, h ▸ hm⟩
        · intro h; exact h.1
      · simp only [hm, if_false, Option.some.injEq]
        constructor
        · intro h; cases h
        · intro h; exact absurd (h.1 ▸ h.2) hm
  · rw [hl]
    simp only [hn, if_false]
  · rw [hl]

/-- C4 witness: a trailing-slash variation on a registered URI of a
registered client is rejected with the invalid-redirect-URI error. -/
theorem validate_request_exact_match_witness :
    ValidateAuthorizationRequest defaultClients "demo-app" "http://localhost:3000/callback/"
      = .error "invalid redirect_uri" :=
  (validate_request_exact_match defaultClients "demo-app"
    "http://localhost:3000/callback/").2.1 demoAppClient (by decide) (by decide)

/-! ## C8: authorization-code keys cannot collide with session ids -/

/-- The hex alphabet used by `hexDigit`. -/
def hexAlphabet : List Char :=
  "0123456789abcdef".data

theorem hexDigit_mem (n : Nat) : hexDigit n ∈ hexAlphabet := by
  unfold hexDigit
  by_cases h₁ : n < 10
  · rw [if_pos h₁]
    interval_cases n <;> decide
  · rw [if_neg h₁]
    by_cases h₂ : n < 16
    · rw [if_pos h₂]
      interval_cases n <;> decide
    · rw [if_neg h₂]
      decide

theorem hexEncode_chars (bs : List Nat) : ∀ c ∈ (hexEncode bs).data, c ∈ hexAlphabet := by
  induction bs with
  | nil => intro c hc; cases hc
  | cons b rest ih =>
    intro c hc
    have hc₂ : c ∈ hexDigit (b / 16) :: hexDigit (b % 16) :: (hexEncode rest).data := hc
    rcases List.mem_cons.mp hc₂ with h | h
    · exact h ▸ hexDigit_mem (b / 16)
    · rcases List.mem_cons.mp h with h₂ | h₂
      · exact h₂ ▸ hexDigit_mem (b % 16)
      · exact ih c h₂

/-- No hex-encoded byte string equals a namespaced authorization-code key:
the key's fifth character is an underscore, which the hex alphabet lacks. -/
theorem hexEncode_ne_auth_code_key (bs : List Nat) (code : String) :
    hexEncode bs ≠ "auth_code:" ++ code := by
  intro h
  have hu : '_' ∈ ("auth_code:" ++ code).data := by
    rw [String.data_append]
    exact List.mem_append_left _ (by decide)
  rw [← h] at hu
  exact absurd (hexEncode_chars bs '_' hu) (by decide)

/-- C8: a session id produced by `generateSessionID` can never equal an
authorization-code storage key, and persisting a code via
`CreateAuthorizationCode` leaves every entry at a session-id key untouched. -/
theorem auth_code_keys_disjoint_from_session_ids :
    (∀ randBytes code, generateSessionID randBytes ≠ "auth_code:" ++ code)
    ∧ (∀ now st randBytes request user sidBytes,
        lookupKey ((CreateAuthorizationCode now st randBytes request user).2)
            (generateSessionID sidBytes)
          = lookupKey st (generateSessionID sidBytes)) := by
  constructor
  · intro randBytes code
    exact hexEncode_ne_auth_code_key randBytes code
  · intro now st randBytes request user sidBytes
    unfold CreateAuthorizationCode MemoryStorage.SaveSession
    exact lookupKey_insertKey_other st _ _ _
      (hexEncode_ne_auth_code_key sidBytes (generateRandomCode randBytes))

/-- C8 witness: a concrete 32-byte session id differs from a concrete
authorization-code key, and a concrete code store keeps a session entry. -/
theorem auth_code_keys_disjoint_from_session_ids_witness :
    generateSessionID (List.replicate 32 7) ≠ "auth_code:" ++ "c1"
    ∧ lookupKey
        ((CreateAuthorizationCode 0 [(generateSessionID (List.replicate 32 9),
            { id := generateSessionID (List.replicate 32 9), username := "alice",
              userId := [97], createdAt := 0, expiresAt := 600 })]
          (List.replicate 32 7)
          { clientID := "demo-app", redirectURI := "http://localhost:3000/callback",
            state := "", createdAt := 0, expiresAt := 600 }
          { id := [97], name := "alice", displayName := "alice", credentials := [],
            createdAt := 0, updatedAt := 0 }).2)
        (generateSessionID (List.replicate 32 9))
      = some { id := generateSessionID (List.replicate 32 9), username := "alice",
               userId := [97], createdAt := 0, expiresAt := 600 } :=
  ⟨auth_code_keys_disjoint_from_session_ids.1 (List.replicate 32 7) "c1",
   by
    rw [auth_code_keys_disjoint_from_session_ids.2 0
      [(generateSessionID (List.replicate 32 9),
        { id := generateSessionID (List.replicate 32 9), username := "alice",
          userId := [97], createdAt := 0, expiresAt := 600 })]
      (List.replicate 32 7)
      { clientID := "demo-app", redirectURI := "http://localhost:3000/callback",
        state := "", createdAt := 0, expiresAt := 600 }
      { id := [97], name := "alice", displayName := "alice", credentials := [],
        createdAt := 0, updatedAt := 0 }
      (List.replicate 32 9)]
    rfl⟩

/-! ## C9: a failed validation leaves the session store untouched -/

/-- C9: when the client/redirect validation fails, the exchange returns that
error with the store unchanged, and any later exchange of the same code
behaves exactly as if the failed call had never happened. -/
theorem exchange_validation_failure_no_effect (clients : List (String × Client))
    (now now₂ : Nat) (st : SessionStore) (code clientID redirectURI cid₂ ruri₂ : String)
    (e : String) (h : ValidateAuthorizationRequest clients clientID redirectURI = .error e) :
    ExchangeAuthorizationCode clients now st code clientID redirectURI = (.error e, st)
    ∧ ExchangeAuthorizationCode clients now₂
        (ExchangeAuthorizationCode clients now st code clientID redirectURI).2 code cid₂ ruri₂
      = ExchangeAuthorizationCode clients now₂ st code cid₂ ruri₂ := by
  have h₁ : ExchangeAuthorizationCode clients now st code clientID redirectURI = (.error e, st) := by
    unfold ExchangeAuthorizationCode
    rw [h]
  exact ⟨h₁, by rw [h₁]⟩

/-- C9 witness: an exchange presenting an unregistered redirect URI fails and
leaves a stored code redeemable by a subsequent valid exchange. -/
theorem exchange_validation_failure_no_effect_witness :
    ExchangeAuthorizationCode defaultClients 100
        [("auth_code:c1", { id := "auth_code:c1", username := "alice", userId := [97],
                            createdAt := 0, expiresAt := 600 })]
        "c1" "demo-app" "http://evil.example/callback"
      = (.error "invalid redirect_uri",
         [("auth_code:c1", { id := "auth_code:c1", username := "alice", userId := [97],
                             createdAt := 0, expiresAt := 600 })]) :=
  (exchange_validation_failure_no_effect defaultClients 100 100
    [("auth_code:c1", { id := "auth_code:c1", username := "alice", userId := [97],
                        createdAt := 0, expiresAt := 600 })]
    "c1" "demo-app" "http://evil.example/callback" "demo-app" "http://evil.example/callback"
    "invalid redirect_uri" rfl).1

/-! ## C1: two interleaved exchanges of the same code -/

def c1CodeSession : Session :=
  { id := "auth_code:c1", username := "alice", userId := strBytes "alice",
    createdAt := 0, expiresAt := 600 }

def c1Store : SessionStore := [("auth_code:c1", c1CodeSession)]

/-- C1 failing input: two concurrent `ExchangeAuthorizationCode("c1",
"demo-app", "http://localhost:3000/callback")` calls whose storage steps
interleave as load-A, load-B, delete-A, delete-B.  Validation passes for
both, a lone sequential exchange of this state succeeds, and under the
interleaving BOTH threads load the record — so both calls return the
owner identity, exchanging the code twice. -/
theorem concurrent_double_exchange_both_succeed :
    ValidateAuthorizationRequest defaultClients "demo-app" "http://localhost:3000/callback"
      = .ok demoAppClient
    ∧ (ExchangeAuthorizationCode defaultClients 100 c1Store "c1" "demo-app"
        "http://localhost:3000/callback").1
      = .ok { code := "c1", clientID := "demo-app",
              redirectURI := "http://localhost:3000/callback", state := "",
              username := "alice", userID := strBytes "alice", createdAt := 0, expiresAt := 600 }
    ∧ (runTwoExchanges 100 "c1" [true, false, true, false]
        (ExchangeThread.init, ExchangeThread.init, c1Store)).1.loaded
      = some (some c1CodeSession)
    ∧ (runTwoExchanges 100 "c1" [true, false, true, false]
        (ExchangeThread.init, ExchangeThread.init, c1Store)).2.1.loaded
      = some (some c1CodeSession) :=
  ⟨rfl, rfl, rfl, rfl⟩

/-! ## C2: exchange does not check the issuance client binding -/

def aliceUser : User :=
  { id := strBytes "alice", name := "alice", displayName := "alice",
    credentials := [], createdAt := 0, updatedAt := 0 }

def c2Request : AuthorizationRequest :=
  { clientID := "demo-app", redirectURI := "http://localhost:3000/callback",
    state := "xyz", createdAt := 0, expiresAt := 600 }

def c2Issued : AuthorizationCode × SessionStore :=
  CreateAuthorizationCode 0 [] (List.replicate 32 7) c2Request aliceUser

/-- C2 failing input: a code issued through `CreateAuthorizationRequest` and
`CreateAuthorizationCode` for client demo-app with its registered URI is
exchanged by the DIFFERENT registered client test-app with test-app's own
URI — and the exchange succeeds, returning alice's identity and the
original expiry. -/
theorem exchange_accepts_other_registered_client :
    CreateAuthorizationRequest defaultClients 0 "demo-app" "http://localhost:3000/callback" "xyz"
      = .ok c2Request
    ∧ c2Issued.1.clientID = "demo-app"
    ∧ c2Issued.1.redirectURI = "http://localhost:3000/callback"
    ∧ (ExchangeAuthorizationCode defaultClients 60 c2Issued.2 c2Issued.1.code
        "test-app" "http://localhost:3001/callback").1
      = .ok { code := generateRandomCode (List.replicate 32 7), clientID := "test-app",
              redirectURI := "http://localhost:3001/callback", state := "",
              username := "alice", userID := strBytes "alice",
              createdAt := 0, expiresAt := 600 } :=
  ⟨rfl, rfl, rfl, rfl⟩

/-! ## C3: /oauth/complete mints a code with no authentication -/

def c3Request : CompleteRequest :=
  { username := "alice", clientID := "demo-app",
    redirectURI := "http://localhost:3000/callback", state := "xyz" }

def c3Code : AuthorizationCode :=
  { code := generateRandomCode (List.replicate 32 7), clientID := "demo-app",
    redirectURI := "http://localhost:3000/callback", state := "xyz",
    username := "alice", userID := strBytes "alice", createdAt := 0, expiresAt := 600 }

/-- C3 failing input: a bare `POST /oauth/complete` body naming alice, with
the session store completely empty (so no authenticated login for any user
exists anywhere) and no cookie or bearer token — the handler consults no
session state and still mints and persists an authorization code owned by
alice. -/
theorem complete_handler_mints_code_unauthenticated :
    CompleteHandler defaultClients 0 [] (List.replicate 32 7) c3Request
      = .ok (c3Code,
        [("auth_code:" ++ c3Code.code,
          { id := "auth_code:" ++ c3Code.code, username := "alice",
            userId := strBytes "alice", createdAt := 0, expiresAt := 600 })]) :=
  rfl

/-! ## C5: expired-but-served records -/

def c5Ceremony : WebAuthnSession :=
  { username := "alice", data := 7, expiresAt := 10 }

/-- A Redis state whose ceremony entry is still served by the store (TTL
deadline 1000) although the record's own expiry, 10, has passed. -/
def c5Redis : RedisState :=
  { webauthnSessions := [("webauthn_session:alice", (c5Ceremony, 1000))], sessions := [] }

/-- C5 counterexample: at time 50 the ceremony record is past its expiry
timestamp yet `RedisStorage.GetWebAuthnSession` returns it — this read has
no defensive expiry re-check, contradicting the claim that every read on
every backend treats an expired-but-present record as absent. -/
theorem redis_ceremony_read_returns_expired_record :
    RedisStorage.GetWebAuthnSession 50 c5Redis "alice" = some c5Ceremony
    ∧ 50 > c5Ceremony.expiresAt :=
  ⟨rfl, by decide⟩

/-- C5 amended: the in-memory reads and the Redis session read do re-check
expiry and report an expired-but-present record absent; only the Redis
ceremony read relies solely on the store TTL. -/
theorem expired_records_read_as_absent (now : Nat) (sst : SessionStore) (wst : WebAuthnStore)
    (rst : RedisState) (id u : String) (s : Session) (w : WebAuthnSession) (dl : Nat) :
    (lookupKey sst id = some s → now > s.expiresAt →
      (MemoryStorage.GetSession now sst id).1 = none)
    ∧ (lookupKey wst u = some w → now > w.expiresAt →
      (MemoryStorage.GetWebAuthnSession now wst u).1 = none)
    ∧ (lookupKey rst.sessions ("session:" ++ id) = some (s, dl) → now > s.expiresAt →
      (RedisStorage.GetSession now rst id).1 = none) := by
  refine ⟨fun hl hexp => ?_, fun hl hexp => ?_, fun hl hexp => ?_⟩
  · unfold MemoryStorage.GetSession
    rw [hl]
    simp [hexp]
  · unfold MemoryStorage.GetWebAuthnSession
    rw [hl]
    simp [hexp]
  · unfold RedisStorage.GetSession redisServe
    rw [hl]
    by_cases hdl : now < dl
    · simp [hdl, hexp]
    · simp [hdl]

def c5ExpiredSession : Session :=
  { id := "sid", username := "alice", userId := strBytes "alice",
    createdAt := 0, expiresAt := 10 }

def c5RedisSessions : RedisState :=
  { webauthnSessions := [], sessions := [("session:sid", (c5ExpiredSession, 1000))] }

/-- C5 witness: the three positive conjuncts evaluated at time 50 on records
that expired at time 10 but are still physically present. -/
theorem expired_records_read_as_absent_witness :
    (MemoryStorage.GetSession 50 [("sid", c5ExpiredSession)] "sid").1 = none
    ∧ (MemoryStorage.GetWebAuthnSession 50 [("alice", c5Ceremony)] "alice").1 = none
    ∧ (RedisStorage.GetSession 50 c5RedisSessions "sid").1 = none :=
  ⟨(expired_records_read_as_absent 50 [("sid", c5ExpiredSession)] [("alice", c5Ceremony)]
      c5RedisSessions "sid" "alice" c5ExpiredSession c5Ceremony 1000).1 rfl (by decide),
   (expired_records_read_as_absent 50 [("sid", c5ExpiredSession)] [("alice", c5Ceremony)]
      c5RedisSessions "sid" "alice" c5ExpiredSession c5Ceremony 1000).2.1 rfl (by decide),
   (expired_records_read_as_absent 50 [("sid", c5ExpiredSession)] [("alice", c5Ceremony)]
      c5RedisSessions "sid" "alice" c5ExpiredSession c5Ceremony 1000).2.2 rfl (by decide)⟩

/-! ## C6: the duplicate-registration conflict gate -/

/-- C6: for a stored user that already has a credential, both registration
steps fail with the Conflict error exactly when no currently valid
authenticated session owned by that username accompanies the request; an
absent or credential-less user is never gated.  The first conjunct
characterises `isUserAuthenticated`: it accepts precisely a resolvable
session id whose session belongs to the same username and is unexpired. -/
theorem registration_conflict_gate (eng : Engine) (saveOk : Bool) (now : Nat)
    (σ : ServiceState) (r : RequestAuth) (username : String) (response : Nat) :
    ((isUserAuthenticated now σ.sessions r username).1 = true ↔
      sessionIDFromRequest r ≠ "" ∧
      ∃ s, (MemoryStorage.GetSession now σ.sessions (sessionIDFromRequest r)).1 = some s
        ∧ s.username = username ∧ now ≤ s.expiresAt)
    ∧ (∀ u, lookupKey σ.users username = some u → u.credentials ≠ [] →
        (isUserAuthenticated now σ.sessions r username).1 = false →
        (BeginRegistration eng now σ r username).1 = .error conflictMsg
        ∧ (∀ sess, (MemoryStorage.GetWebAuthnSession now σ.webauthnSessions username).1 = some sess →
            (FinishRegistration eng saveOk now σ r username response).1 = .error conflictMsg))
    ∧ (∀ u, lookupKey σ.users username = some u → u.credentials ≠ [] →
        (isUserAuthenticated now σ.sessions r username).1 = true →
        (BeginRegistration eng now σ r username).1 ≠ .error conflictMsg)
    ∧ ((lookupKey σ.users username = none ∨
        (∃ u, lookupKey σ.users username = some u ∧ u.credentials = [])) →
        (BeginRegistration eng now σ r username).1 ≠ .error conflictMsg) := by
  have hchar : (isUserAuthenticated now σ.sessions r username).1 = true ↔
      sessionIDFromRequest r ≠ "" ∧
      ∃ s, (MemoryStorage.GetSession now σ.sessions (sessionIDFromRequest r)).1 = some s
        ∧ s.username = username ∧ now ≤ s.expiresAt := by
    constructor
    · intro h
      unfold isUserAuthenticated at h
      by_cases hsid : sessionIDFromRequest r = ""
      · simp [hsid] at h
      · refine ⟨hsid, ?_⟩
        cases hg : MemoryStorage.GetSession now σ.sessions (sessionIDFromRequest r) with
        | mk v st₂ =>
          cases v with
          | none => simp [hsid, hg] at h
          | some s =>
            by_cases hc : s.username ≠ username ∨ s.expiresAt < now
            · simp [hsid, hg, hc] at h
            · push_neg at hc
              exact ⟨s, rfl, hc.1, hc.2⟩
    · rintro ⟨hsid, s, hget, huser, hexp⟩
      unfold isUserAuthenticated
      cases hg : MemoryStorage.GetSession now σ.sessions (sessionIDFromRequest r) with
      | mk v st₂ =>
        rw [hg] at hget
        cases v with
        | none => exact absurd hget (by simp)
        | some s₂ =>
          have hs : s₂ = s := by simpa using hget
          subst hs
          have hcond : ¬(s₂.username ≠ username ∨ s₂.expiresAt < now) := by
            push_neg
            exact ⟨huser, hexp⟩
          simp [hsid, hg, hcond]
  have hgateEq : ∀ u, lookupKey σ.users username = some u → u.credentials ≠ [] →
      registrationGate now σ.users σ.sessions r username
        = isUserAuthenticated now σ.sessions r username := by
    intro u hl hcred
    unfold registrationGate
    rw [hl]
    simp [List.length_pos.mpr hcred]
  refine ⟨hchar, fun u hl hcred hauth => ⟨?_, fun sess hsess => ?_⟩, fun u hl hcred hauth => ?_,
    fun hfree => ?_⟩
  · unfold BeginRegistration
    rw [hgateEq u hl hcred]
    simp [hauth]
  · have hpair : MemoryStorage.GetWebAuthnSession now σ.webauthnSessions username
        = (some sess, σ.webauthnSessions) := by
      have h₂ := getWebAuthnSession_some_frame now σ.webauthnSessions username sess hsess
      cases hg : MemoryStorage.GetWebAuthnSession now σ.webauthnSessions username with
      | mk a b =>
        rw [hg] at hsess h₂
        simp only at hsess h₂
        rw [hsess, h₂]
    unfold FinishRegistration
    rw [hpair, hgateEq u hl hcred]
    simp [hauth]
  · unfold BeginRegistration
    rw [hgateEq u hl hcred]
    rcases heng : eng.beginRegistration (resolveRegistrationUser now σ.users username) with
      _ | ⟨options, sessionData⟩ <;>
      simp [hauth, heng, conflictMsg]
  · have hgateTrue : registrationGate now σ.users σ.sessions r username = (true, σ.sessions) := by
      unfold registrationGate
      rcases hfree with hl | ⟨u, hl, hcred⟩
      · rw [hl]
      · rw [hl]
        simp [hcred]
    unfold BeginRegistration
    rw [hgateTrue]
    rcases heng : eng.beginRegistration (resolveRegistrationUser now σ.users username) with
      _ | ⟨options, sessionData⟩ <;>
      simp [heng, conflictMsg]

/-- C6 witness: bob already has a credential and the request carries no
session at all, so `BeginRegistration` answers the Conflict error. -/
theorem registration_conflict_gate_witness :
    (BeginRegistration
      { beginRegistration := fun _ => some (1, 2), finishRegistration := fun _ _ _ => none }
      50
      { users := [("bob", { id := strBytes "bob", name := "bob", displayName := "bob",
                            credentials := [{ id := [3], payload := 0 }],
                            createdAt := 0, updatedAt := 0 })],
        sessions := [], webauthnSessions := [] }
      { cookieSessionID := none, authorizationHeader := none } "bob").1
      = .error conflictMsg :=
  ((registration_conflict_gate
      { beginRegistration := fun _ => some (1, 2), finishRegistration := fun _ _ _ => none }
      true 50
      { users := [("bob", { id := strBytes "bob", name := "bob", displayName := "bob",
                            credentials := [{ id := [3], payload := 0 }],
                            createdAt := 0, updatedAt := 0 })],
        sessions := [], webauthnSessions := [] }
      { cookieSessionID := none, authorizationHeader := none } "bob" 0).2.1
    { id := strBytes "bob", name := "bob", displayName := "bob",
      credentials := [{ id := [3], payload := 0 }], createdAt := 0, updatedAt := 0 }
    rfl (by decide) rfl).1

/-! ## C7: credential deletion -/

def carolCredA : Credential := { id := [1], payload := 0 }

def carolCredB : Credential := { id := [1], payload := 999 }

def carolCredC : Credential := { id := [2], payload := 0 }

/-- A stored user whose credential list carries two distinct records with the
same credential-id bytes (storage contents are external input: nothing on
the read path enforces unique ids). -/
def carolUser : User :=
  { id := strBytes "carol", name := "carol", displayName := "carol",
    credentials := [carolCredA, carolCredB, carolCredC], createdAt := 0, updatedAt := 0 }

/-- C7 counterexample: deleting by the shared identifier removes BOTH
matching records — three credentials become one, not "exactly one fewer"
as the claim states. -/
theorem delete_credential_removes_two :
    DeleteCredential [("carol", carolUser)] 5 "carol" (base64urlEncode [1])
      = .ok [("carol", { carolUser with credentials := [carolCredC], updatedAt := 5 })]
    ∧ carolUser.credentials.length = 3 :=
  ⟨rfl, rfl⟩

/-- Keeping the non-matching elements and counting the matching ones
partitions a list. -/
theorem length_filter_not_add_countP {α : Type} (q : α → Bool) (l : List α) :
    (l.filter (fun a => !(q a))).length + l.countP q = l.length := by
  induction l with
  | nil => rfl
  | cons c rest ih =>
    rw [List.filter_cons, List.countP_cons]
    cases hq : q c <;> simp [hq] <;> omega

/-- Length accounting for the deletion filter. -/
theorem length_filter_ne_add_countP (credentialID : String) (l : List Credential) :
    (l.filter (fun c => base64urlEncode c.id ≠ credentialID)).length
      + l.countP (fun c => base64urlEncode c.id == credentialID) = l.length := by
  have hfun : (fun c : Credential => decide (base64urlEncode c.id ≠ credentialID))
      = (fun c : Credential => !(base64urlEncode c.id == credentialID)) := by
    funext c
    by_cases h : base64urlEncode c.id = credentialID <;> simp [h]
  rw [show l.filter (fun c => base64urlEncode c.id ≠ credentialID)
        = l.filter (fun c => !(base64urlEncode c.id == credentialID)) from by rw [hfun]]
  exact length_filter_not_add_countP _ l

/-- C7 amended: `DeleteCredential` fails NotFound when no credential of the
user carries the identifier; fails with the dedicated last-credential error
when every credential matches; otherwise persists the user keeping exactly
the non-matching credentials in order — one fewer whenever exactly one
credential matched. -/
theorem delete_credential_cases (users : UserStore) (now : Nat)
    (username credentialID : String) (user : User)
    (hl : lookupKey users username = some user) :
    ((∀ c ∈ user.credentials, base64urlEncode c.id ≠ credentialID) →
      DeleteCredential users now username credentialID = .error "credential not found")
    ∧ ((∃ c ∈ user.credentials, base64urlEncode c.id = credentialID) →
        user.credentials.filter (fun c => base64urlEncode c.id ≠ credentialID) = [] →
        DeleteCredential users now username credentialID
          = .error "cannot delete the last credential")
    ∧ (∀ keep, (∃ c ∈ user.credentials, base64urlEncode c.id = credentialID) →
        user.credentials.filter (fun c => base64urlEncode c.id ≠ credentialID) = keep →
        keep ≠ [] →
        DeleteCredential users now username credentialID
          = .ok (insertKey users user.name { user with credentials := keep, updatedAt := now }))
    ∧ (user.credentials.countP (fun c => base64urlEncode c.id == credentialID) = 1 →
        (user.credentials.filter (fun c => base64urlEncode c.id ≠ credentialID)).length + 1
          = user.credentials.length) := by
  refine ⟨fun hno => ?_, fun hex hemp => ?_, fun keep hex hfil hne => ?_, fun hcount => ?_⟩
  · unfold DeleteCredential
    rw [hl]
    simp only []
    have hfound : user.credentials.any (fun c => base64urlEncode c.id == credentialID) = false := by
      rw [List.any_eq_false]
      intro c hc
      simp [hno c hc]
    rw [hfound, if_pos rfl]
  · unfold DeleteCredential
    rw [hl]
    simp only []
    have hfound : user.credentials.any (fun c => base64urlEncode c.id == credentialID) = true := by
      rw [List.any_eq_true]
      obtain ⟨c, hc, he⟩ := hex
      exact ⟨c, hc, by simp [he]⟩
    rw [hfound, if_neg (by decide), hemp, if_pos rfl]
  · unfold DeleteCredential
    rw [hl]
    simp only []
    have hfound : user.credentials.any (fun c => base64urlEncode c.id == credentialID) = true := by
      rw [List.any_eq_true]
      obtain ⟨c, hc, he⟩ := hex
      exact ⟨c, hc, by simp [he]⟩
    rw [hfound, if_neg (by decide), hfil, if_neg hne]
  · have := length_filter_ne_add_countP credentialID user.credentials
    omega

def daveCredA : Credential := { id := [1], payload := 0 }

def daveCredB : Credential := { id := [2], payload := 0 }

def daveUser : User :=
  { id := strBytes "dave", name := "dave", displayName := "dave",
    credentials := [daveCredA, daveCredB], createdAt := 0, updatedAt := 0 }

/-- C7 witness: dave has two credentials with distinct ids; deleting one
succeeds and persists exactly the other. -/
theorem delete_credential_cases_witness :
    DeleteCredential [("dave", daveUser)] 9 "dave" (base64urlEncode [1])
      = .ok (insertKey [("dave", daveUser)] "dave"
          { daveUser with credentials := [daveCredB], updatedAt := 9 }) :=
  (delete_credential_cases [("dave", daveUser)] 9 "dave" (base64urlEncode [1]) daveUser
    rfl).2.2.1 [daveCredB] ⟨daveCredA, by decide, rfl⟩ (by decide) (by decide)

/-! ## C10: commit order of FinishRegistration -/

/-- C10: with a live ceremony session and a passing conflict gate, an engine
rejection leaves the entire service state — user records, authenticated
sessions and the ceremony session — exactly as it was (so the same call can
be retried); a failed `SaveUser` write also deletes nothing; and on success
the ceremony session is deleted and the user persisted with the new
credential appended, in that dependency order. -/
theorem finish_registration_commit_order (eng : Engine) (saveOk : Bool) (now : Nat)
    (σ : ServiceState) (r : RequestAuth) (username : String) (response : Nat)
    (sess : WebAuthnSession)
    (hget : (MemoryStorage.GetWebAuthnSession now σ.webauthnSessions username).1 = some sess)
    (hgate : (registrationGate now σ.users σ.sessions r username).1 = true) :
    (eng.finishRegistration (resolveRegistrationUser now σ.users username) sess.data response
        = none →
      FinishRegistration eng saveOk now σ r username response
        = (.error "failed to finish registration", σ))
    ∧ (∀ cred,
        eng.finishRegistration (resolveRegistrationUser now σ.users username) sess.data response
          = some cred →
        saveOk = false →
        FinishRegistration eng saveOk now σ r username response
          = (.error "failed to save user", σ))
    ∧ (∀ cred,
        eng.finishRegistration (resolveRegistrationUser now σ.users username) sess.data response
          = some cred →
        saveOk = true →
        FinishRegistration eng saveOk now σ r username response
          = (.ok (),
             { users :=
                 insertKey σ.users
                   ({ resolveRegistrationUser now σ.users username with
                      credentials :=
                        (resolveRegistrationUser now σ.users username).credentials ++ [cred],
                      updatedAt := now }).name
                   { resolveRegistrationUser now σ.users username with
                     credentials :=
                       (resolveRegistrationUser now σ.users username).credentials ++ [cred],
                     updatedAt := now },
               sessions := σ.sessions,
               webauthnSessions :=
                 MemoryStorage.DeleteWebAuthnSession σ.webauthnSessions username })) := by
  have hpair : MemoryStorage.GetWebAuthnSession now σ.webauthnSessions username
      = (some sess, σ.webauthnSessions) := by
    have h₂ := getWebAuthnSession_some_frame now σ.webauthnSessions username sess hget
    cases hg : MemoryStorage.GetWebAuthnSession now σ.webauthnSessions username with
    | mk a b =>
      rw [hg] at hget h₂
      simp only at hget h₂
      rw [hget, h₂]
  have hgatepair : registrationGate now σ.users σ.sessions r username = (true, σ.sessions) := by
    have h₂ := registrationGate_true_frame now σ.users σ.sessions r username hgate
    cases hg : registrationGate now σ.users σ.sessions r username with
    | mk a b =>
      rw [hg] at hgate h₂
      simp only at hgate h₂
      rw [hgate, h₂]
  refine ⟨fun heng => ?_, fun cred heng hsv => ?_, fun cred heng hsv => ?_⟩
  · unfold FinishRegistration
    rw [hpair]
    simp [hgatepair, heng]
  · subst hsv
    unfold FinishRegistration
    rw [hpair]
    simp [hgatepair, heng]
  · subst hsv
    unfold FinishRegistration
    rw [hpair]
    simp [hgatepair, heng]

/-- C10 witness: a concrete engine rejection leaves the concrete state —
including the live ceremony session — untouched. -/
theorem finish_registration_commit_order_witness :
    FinishRegistration
      { beginRegistration := fun _ => some (1, 2), finishRegistration := fun _ _ _ => none }
      true 50
      { users := [], sessions := [],
        webauthnSessions := [("erin", { username := "erin", data := 4, expiresAt := 300 })] }
      { cookieSessionID := none, authorizationHeader := none } "erin" 11
      = (.error "failed to finish registration",
         { users := [], sessions := [],
           webauthnSessions := [("erin", { username := "erin", data := 4, expiresAt := 300 })] }) :=
  (finish_registration_commit_order
    { beginRegistration := fun _ => some (1, 2), finishRegistration := fun _ _ _ => none }
    true 50
    { users := [], sessions := [],
      webauthnSessions := [("erin", { username := "erin", data := 4, expiresAt := 300 })] }
    { cookieSessionID := none, authorizationHeader := none } "erin" 11
    { username := "erin", data := 4, expiresAt := 300 } rfl rfl).1 rfl

end Passkey
